import Mathlib

/- Verification of the github-runner-operator provisioning core:
   an embedding of `src/openstack_cloud/openstack_manager.py` and
   `github-runner-manager/src/github_runner_manager/configuration/base.py`,
   with theorems about the claimed properties. -/

namespace GithubRunner

/-- Model of a parsed HTTP(S) URL as pydantic's `AnyHttpUrl` exposes it to the
code under scrutiny: a host and an optional port; the port is `none` exactly
when the URL text does not carry an explicit port. A URL object is always
truthy in Python, so presence (`Option.isSome`) models truthiness. -/
structure HttpUrl where
  host : String
  port : Option Nat
  deriving DecidableEq, Repr

/-- Embedding of `ProxyConfig` (configuration/base.py): fields `http`,
`https`, `no_proxy`, `use_aproxy`. -/
structure ProxyConfig where
  http : Option HttpUrl
  https : Option HttpUrl
  no_proxy : Option String
  use_aproxy : Bool
  deriving DecidableEq, Repr

/-- Pydantic construction of `ProxyConfig`, running the `check_use_aproxy`
validator (configuration/base.py lines 84-102): if `use_aproxy` is set and
neither `http` nor `https` is truthy, a `ValueError` (modelled as
`Except.error` with the message) fails construction. -/
def ProxyConfig.make (http https : Option HttpUrl) (no_proxy : Option String)
    (use_aproxy : Bool) : Except String ProxyConfig :=
  if use_aproxy && !(http.isSome || https.isSome) then
    Except.error "aproxy requires http or https to be set"
  else
    Except.ok { http := http, https := https, no_proxy := no_proxy, use_aproxy := use_aproxy }

/-- Python `AssertionError`, raised by the `assert` inside `aproxy_address`. -/
inductive AssertionError
  | mk
  deriving DecidableEq, Repr

/-- Embedding of the `aproxy_address` property (configuration/base.py lines
66-82): when `use_aproxy`, take `self.http or self.https`; the `assert`
branch is the `none` case; the result is `host` when the URL has no port and
`host:port` otherwise. -/
def ProxyConfig.aproxy_address (pc : ProxyConfig) : Except AssertionError (Option String) :=
  if pc.use_aproxy then
    match pc.http.orElse (fun _ => pc.https) with
    | none => Except.error AssertionError.mk
    | some u =>
        Except.ok (some (match u.port with
          | none => u.host
          | some p => u.host ++ ":" ++ toString p))
  else
    Except.ok none

/-- Embedding of `ProxyConfig.__bool__` (configuration/base.py lines 104-110):
`bool(self.http or self.https)`. -/
def ProxyConfig.toBool (pc : ProxyConfig) : Bool :=
  pc.http.isSome || pc.https.isSome

/-- Character-list test that `pat` is an initial segment of `cs`; executable
model of anchored regex matching used below. -/
def leadChars : List Char → List Char → Bool
  | [], _ => true
  | _ :: _, [] => false
  | p :: ps, c :: cs => p == c && leadChars ps cs

/-- Match of the anchored pattern `^SHA256:.*` declared on the fingerprint
fields of `SSHDebugConnection`: the string starts with "SHA256:". -/
def matchesSHA256 (s : String) : Bool :=
  leadChars "SHA256:".data s.data

/-- Embedding of `SSHDebugConnection` (configuration/base.py lines 113-126). -/
structure SSHDebugConnection where
  host : String
  port : Nat
  rsa_fingerprint : String
  ed25519_fingerprint : String
  deriving DecidableEq, Repr

/-- Pydantic construction of `SSHDebugConnection` with its declared field
constraints: `port` with `gt=0, le=65535`, and both fingerprints matching the
anchored pattern `^SHA256:.*`, i.e. starting with "SHA256:". -/
def SSHDebugConnection.make (host : String) (port : Nat)
    (rsa_fingerprint ed25519_fingerprint : String) : Except String SSHDebugConnection :=
  if 0 < port then
    if port ≤ 65535 then
      if matchesSHA256 rsa_fingerprint then
        if matchesSHA256 ed25519_fingerprint then
          Except.ok { host := host, port := port, rsa_fingerprint := rsa_fingerprint,
                      ed25519_fingerprint := ed25519_fingerprint }
        else Except.error "ed25519_fingerprint does not match pattern SHA256:"
      else Except.error "rsa_fingerprint does not match pattern SHA256:"
    else Except.error "port must be at most 65535"
  else Except.error "port must be greater than 0"

/-- Embedding of `RepoPolicyComplianceConfig` (configuration/base.py). -/
structure RepoPolicyComplianceConfig where
  token : String
  url : HttpUrl
  deriving DecidableEq, Repr

/-- Modelled from the spec: the `github` configuration module imported by
configuration/base.py is not among the sources; the spec describes it only as
"target repo/org identity + credentials". -/
structure GitHubConfiguration where
  token : String
  path : String
  deriving DecidableEq, Repr

/-- Embedding of `SupportServiceConfig` (configuration/base.py). -/
structure SupportServiceConfig where
  proxy_config : Option ProxyConfig
  dockerhub_mirror : Option String
  ssh_debug_connections : Option (List SSHDebugConnection)
  repo_policy_compliance : Option RepoPolicyComplianceConfig
  deriving DecidableEq, Repr

/-- Embedding of `Image` (configuration/base.py). -/
structure Image where
  image : String
  labels : List String
  deriving DecidableEq, Repr

/-- Embedding of `Flavor` (configuration/base.py). -/
structure Flavor where
  flavor : String
  labels : List String
  deriving DecidableEq, Repr

/-- Embedding of `NonReactiveCombination` (configuration/base.py). -/
structure NonReactiveCombination where
  image : Image
  flavor : Flavor
  base_virtual_machines : Nat
  deriving DecidableEq, Repr

/-- Embedding of `NonReactiveConfiguration` (configuration/base.py). -/
structure NonReactiveConfiguration where
  combinations : List NonReactiveCombination
  deriving DecidableEq, Repr

/-- Embedding of `QueueConfig` (configuration/base.py). -/
structure QueueConfig where
  mongodb_uri : String
  queue_name : String
  deriving DecidableEq, Repr

/-- Embedding of `ReactiveConfiguration` (configuration/base.py). -/
structure ReactiveConfiguration where
  queue : QueueConfig
  max_total_virtual_machines : Nat
  images : List Image
  flavors : List Flavor
  deriving DecidableEq, Repr

/-- Embedding of `ApplicationConfiguration` (configuration/base.py). -/
structure ApplicationConfiguration where
  extra_labels : List String
  github_config : GitHubConfiguration
  service_config : SupportServiceConfig
  non_reactive_configuration : NonReactiveConfiguration
  reactive_configuration : Option ReactiveConfiguration
  deriving DecidableEq, Repr

/-- Fixed logical image name, `IMAGE_NAME = "jammy"` (openstack_manager.py line 36). -/
def IMAGE_NAME : String := "jammy"

/-- Python exceptions that are not caught anywhere in the embedded code and
therefore escape untranslated. -/
inductive PyError
  | indexError
  deriving DecidableEq, Repr

/-- Embedding of `_create_connection` (openstack_manager.py lines 40-63):
`clouds` is the key list of `cloud_config["clouds"]`; the code takes
`clouds[0]`, which raises `IndexError` on an empty list, and otherwise
connects with the first cloud name (the connection handle is modelled by the
chosen cloud name). When more than one cloud is present only a warning is
logged. -/
def _create_connection (clouds : List String) : Except PyError String :=
  match clouds with
  | [] => Except.error PyError.indexError
  | c :: _ => Except.ok c

/-- Embedding of `_get_supported_runner_arch` (openstack_manager.py lines
188-206): `"x64" -> "amd64"`, `"arm64" -> "arm64"`, anything else raises
`UnsupportedArchitectureError(arch)` (modelled as `Except.error arch`). -/
def _get_supported_runner_arch (arch : String) : Except String String :=
  if arch = "x64" then Except.ok "amd64"
  else if arch = "arm64" then Except.ok "arm64"
  else Except.error arch

/-- The fields of the platform's `RunnerApplication` metadata that
`build_image` reads: `download_url` and `architecture`. -/
structure RunnerApplication where
  download_url : String
  architecture : String
  deriving DecidableEq, Repr

/-- The `OpenstackImageBuildError` variants raised by `build_image`, one per
message in the source. -/
inductive OpenstackImageBuildError
  | fetchRunnerApplication
  | buildFailed
  | unsupportedArchitecture (arch : String)
  | deleteDuplicateFailed
  | uploadFailed
  deriving DecidableEq, Repr

/-- Outcome of `build_image`: either an `OpenstackImageBuildError` or an
uncaught Python exception (nothing in the function catches `IndexError`). -/
inductive BuildFailure
  | imageBuildError (e : OpenstackImageBuildError)
  | uncaught (e : PyError)
  deriving DecidableEq, Repr

/-- Observable external actions performed by `build_image`, recorded in
order: running the external build script, connecting to the cloud, and the
image-store operations. -/
inductive Effect
  | ranBuildScript (download_url : String)
  | connectedCloud
  | searchedImages (name : String)
  | deletedImage (id : String)
  | createdImage (name : String)
  deriving DecidableEq, Repr

/-- An image in the cloud image store: cloud-assigned id plus name. -/
structure Img where
  id : String
  name : String
  deriving DecidableEq, Repr

/-- The `for existing_image in conn.search_images(...)` loop of `build_image`
(openstack_manager.py lines 249-253): delete each matched image by id with
`wait=True`; a falsy return from `delete_image` raises
`OpenstackImageBuildError("Failed to delete duplicate image on Openstack.")`.
Arguments: the delete-success oracle, the matches returned by the search, and
the current store; returns the loop outcome, the store afterwards, and the
effects performed. -/
def deleteLoop (deleteOk : String → Bool) :
    List Img → List Img → Except OpenstackImageBuildError Unit × List Img × List Effect
  | [], store => (Except.ok (), store, [])
  | m :: rest, store =>
    if deleteOk m.id then
      match deleteLoop deleteOk rest (store.filter (fun i => i.id != m.id)) with
      | (r, st, effs) => (r, st, Effect.deletedImage m.id :: effs)
    else
      (Except.error OpenstackImageBuildError.deleteDuplicateFailed, store, [])

/-- Result of a `build_image` call: its outcome, the image store afterwards,
and the external effects it performed, in order. -/
structure BuildImageResult where
  outcome : Except BuildFailure String
  store : List Img
  effects : List Effect
  deriving Repr

/-- Embedding of `build_image` (openstack_manager.py lines 209-259) over
explicit oracles for the external world: `gh` is the result of
`github_client.get_runner_application` (error = `RunnerBinaryError`);
`buildOk` whether `execute_command` on the build script succeeds; `clouds`
the named clouds of the credential bundle; `deleteOk` whether
`conn.delete_image(id, wait=True)` returns truthy; `createOk` whether
`conn.create_image` succeeds (false = `OpenStackCloudException`);
`newImageId` the cloud-assigned id of the uploaded image; `store` the image
store before the call. The source's order is kept: fetch metadata, run the
build script, check the architecture from the metadata, connect, search,
delete duplicates, upload. -/
def build_image (gh : Except Unit RunnerApplication) (buildOk : Bool)
    (clouds : List String) (deleteOk : String → Bool) (createOk : Bool)
    (newImageId : String) (store : List Img) : BuildImageResult :=
  match gh with
  | Except.error _ =>
      ⟨Except.error (BuildFailure.imageBuildError OpenstackImageBuildError.fetchRunnerApplication),
       store, []⟩
  | Except.ok app =>
    if !buildOk then
      ⟨Except.error (BuildFailure.imageBuildError OpenstackImageBuildError.buildFailed),
       store, [Effect.ranBuildScript app.download_url]⟩
    else
      match _get_supported_runner_arch app.architecture with
      | Except.error a =>
          ⟨Except.error (BuildFailure.imageBuildError
              (OpenstackImageBuildError.unsupportedArchitecture a)),
           store, [Effect.ranBuildScript app.download_url]⟩
      | Except.ok _image_arch =>
        match _create_connection clouds with
        | Except.error e =>
            ⟨Except.error (BuildFailure.uncaught e), store,
             [Effect.ranBuildScript app.download_url]⟩
        | Except.ok _conn =>
          match deleteLoop deleteOk (store.filter (fun i => i.name == IMAGE_NAME)) store with
          | (Except.error e, st, effs) =>
              ⟨Except.error (BuildFailure.imageBuildError e), st,
               Effect.ranBuildScript app.download_url :: Effect.connectedCloud ::
                 Effect.searchedImages IMAGE_NAME :: effs⟩
          | (Except.ok _, st, effs) =>
            if createOk then
              ⟨Except.ok newImageId, st ++ [⟨newImageId, IMAGE_NAME⟩],
               Effect.ranBuildScript app.download_url :: Effect.connectedCloud ::
                 Effect.searchedImages IMAGE_NAME ::
                   (effs ++ [Effect.createdImage IMAGE_NAME])⟩
            else
              ⟨Except.error (BuildFailure.imageBuildError OpenstackImageBuildError.uploadFailed),
               st,
               Effect.ranBuildScript app.download_url :: Effect.connectedCloud ::
                 Effect.searchedImages IMAGE_NAME :: effs⟩

/-- Split a character list at its last occurrence of `sep`: `none` when `sep`
does not occur, otherwise the pieces before and after that occurrence. -/
def rsplitOnceChars (sep : Char) : List Char → Option (List Char × List Char)
  | [] => none
  | c :: cs =>
    match rsplitOnceChars sep cs with
    | some (before, after) => some (c :: before, after)
    | none => if c == sep then some ([], cs) else none

/-- Python `unit_name.rsplit("/", 1)` unpacked into two variables: `none`
models the `ValueError` when the string has no `/`; otherwise the pieces
before and after the last `/`. -/
def rsplitSlash (s : String) : Option (String × String) :=
  match rsplitOnceChars '/' s.data with
  | none => none
  | some (before, after) => some (String.mk before, String.mk after)

/-- Embedding of `InstanceConfig` (openstack_manager.py lines 169-185); the
opaque openstack image handle is modelled by its id. -/
structure InstanceConfig where
  name : String
  labels : List String
  registration_token : String
  github_path : String
  openstack_image : String
  deriving DecidableEq, Repr

/-- Embedding of `create_instance_config` (openstack_manager.py lines
262-285): split the unit name at its last `/`, and build the config with
name `app_name-unit_num-suffix` and labels `(app_name, "jammy")`. The random
`secrets.token_hex(12)` suffix and the token returned by
`github_client.get_runner_registration_token` are passed in as oracles. -/
def create_instance_config (unit_name : String) (openstack_image : String)
    (path : String) (registration_token : String) (suffix : String) :
    Option InstanceConfig :=
  match rsplitSlash unit_name with
  | none => none
  | some (app_name, unit_num) =>
      some { name := app_name ++ "-" ++ unit_num ++ "-" ++ suffix,
             labels := [app_name, "jammy"],
             registration_token := registration_token,
             github_path := path,
             openstack_image := openstack_image }

/-- The `InstanceLaunchError` of `create_instance`; `cause` carries the
underlying `OpenStackCloudException` payload so that "surfaced unchanged" is
observable. -/
inductive InstanceLaunchError
  | failedToLaunch (cause : Nat)
  deriving DecidableEq, Repr

/-- Modelled from the spec: the `retry` decorator used on `create_instance`
comes from the repository's `utilities` module, which is not among the
sources. Per the spec (§4.4, §9) it is an explicit policy — max attempts,
initial delay, backoff multiplier, max delay — wrapping one retryable
operation: on failure with retries remaining it sleeps the current delay,
multiplies the delay by `backoff` capping it at `maxDelay`, and tries again;
the final failure is surfaced unchanged. `remaining` is the number of
retries still allowed after the current attempt (so `remaining = 4` means 5
tries total); `attempt` is the 0-based index of the current attempt. Returns
the final result, the number of attempts made, and the list of delays slept
in order. -/
def retryRun {ε α : Type} (op : Nat → Except ε α) (backoff maxDelay : Nat) :
    Nat → Nat → Nat → Except ε α × Nat × List Nat
  | 0, _delay, attempt => (op attempt, attempt + 1, [])
  | remaining + 1, delay, attempt =>
    match op attempt with
    | Except.ok a => (Except.ok a, attempt + 1, [])
    | Except.error _ =>
      match retryRun op backoff maxDelay remaining (min (delay * backoff) maxDelay) (attempt + 1) with
      | (res, n, ds) => (res, n, delay :: ds)

/-- One attempt of the body of `create_instance` (openstack_manager.py lines
340-378): render the runner env and cloud-init payloads (pure template
rendering), connect to the cloud, and `create_server(..., wait=True)`;
`cloud attempt` is the cloud-side outcome of the given attempt, whose error
payload models the `OpenStackCloudException`, mapped to
`InstanceLaunchError("Failed to launch instance.")`. -/
def create_instance_once (cloud : Nat → Except Nat Unit) (attempt : Nat) :
    Except InstanceLaunchError Unit :=
  match cloud attempt with
  | Except.ok _ => Except.ok ()
  | Except.error e => Except.error (InstanceLaunchError.failedToLaunch e)

/-- `create_instance` as decorated with
`@retry(tries=5, delay=5, max_delay=60, backoff=2)` (openstack_manager.py
line 339): the whole operation under the retry policy. -/
def create_instance (cloud : Nat → Except Nat Unit) :
    Except InstanceLaunchError Unit × Nat × List Nat :=
  retryRun (create_instance_once cloud) 2 60 4 5 0

/-- A concrete application configuration carrying an extra label, used as the
input of the C9 counterexample. -/
def exampleAppConfiguration : ApplicationConfiguration :=
  { extra_labels := ["special-label"],
    github_config := { token := "ghp-token", path := "org/repo" },
    service_config := { proxy_config := none, dockerhub_mirror := none,
                        ssh_debug_connections := none, repo_policy_compliance := none },
    non_reactive_configuration := { combinations := [] },
    reactive_configuration := none }

/-- C3: code-bug evidence — `_create_connection` on a credential bundle with
no named clouds evaluates `clouds[0]` and raises an uncaught `IndexError`,
not the `ConfigError`/`InvalidConfigError` that its docstring and the error
taxonomy document for an empty configuration. -/
theorem C3_create_connection_empty_clouds :
    _create_connection [] = Except.error PyError.indexError := rfl

/-- C5: for every successfully constructed `ProxyConfig`, `aproxy_address`
is `none` when `use_aproxy` is false; when `use_aproxy` is true it is the
host of `http` when `http` is set (preferring it over `https`), else the
host of `https`, suffixed with `:port` exactly when that URL carries a
port. -/
theorem C5_aproxy_address (http https : Option HttpUrl) (no_proxy : Option String)
    (use_aproxy : Bool) (pc : ProxyConfig)
    (h : ProxyConfig.make http https no_proxy use_aproxy = Except.ok pc) :
    (pc.use_aproxy = false → pc.aproxy_address = Except.ok none) ∧
    (∀ u, pc.use_aproxy = true → pc.http = some u →
        pc.aproxy_address = Except.ok (some (match u.port with
          | none => u.host
          | some p => u.host ++ ":" ++ toString p))) ∧
    (∀ u, pc.use_aproxy = true → pc.http = none → pc.https = some u →
        pc.aproxy_address = Except.ok (some (match u.port with
          | none => u.host
          | some p => u.host ++ ":" ++ toString p))) := by
  unfold ProxyConfig.make at h
  split at h
  · cases h
  · injection h with h'
    subst h'
    refine ⟨?_, ?_, ?_⟩
    · intro hf
      simp only [ProxyConfig.use_aproxy] at hf
      simp [ProxyConfig.aproxy_address, hf]
    · intro u hu hh
      simp only [ProxyConfig.use_aproxy] at hu
      simp only [ProxyConfig.http] at hh
      simp [ProxyConfig.aproxy_address, hu, hh, Option.orElse]
    · intro u hu hh hs
      simp only [ProxyConfig.use_aproxy] at hu
      simp only [ProxyConfig.http] at hh
      simp only [ProxyConfig.https] at hs
      simp [ProxyConfig.aproxy_address, hu, hh, hs, Option.orElse]

/-- C5 witness: a config with `use_aproxy` and `http="http://1.2.3.4:8080"`
yields aproxy address `1.2.3.4:8080`; one with `http="http://1.2.3.4"` (no
port) yields `1.2.3.4`. -/
theorem C5_aproxy_address_witness :
    ProxyConfig.aproxy_address ⟨some ⟨"1.2.3.4", some 8080⟩, none, none, true⟩
        = Except.ok (some "1.2.3.4:8080") ∧
    ProxyConfig.aproxy_address ⟨some ⟨"1.2.3.4", none⟩, none, none, true⟩
        = Except.ok (some "1.2.3.4") := by
  constructor
  · exact (C5_aproxy_address (some ⟨"1.2.3.4", some 8080⟩) none none true
      ⟨some ⟨"1.2.3.4", some 8080⟩, none, none, true⟩ rfl).2.1 ⟨"1.2.3.4", some 8080⟩ rfl rfl
  · exact (C5_aproxy_address (some ⟨"1.2.3.4", none⟩) none none true
      ⟨some ⟨"1.2.3.4", none⟩, none, none, true⟩ rfl).2.1 ⟨"1.2.3.4", none⟩ rfl rfl

/-- C6: constructing a `ProxyConfig` with `use_aproxy` set and neither
`http` nor `https` fails with the validator's error, and no constructed
instance has `use_aproxy` true with both schemes absent. -/
theorem C6_use_aproxy_requires_scheme (no_proxy : Option String) :
    (ProxyConfig.make none none no_proxy true
        = Except.error "aproxy requires http or https to be set") ∧
    (∀ (http https : Option HttpUrl) (np : Option String) (ua : Bool) (pc : ProxyConfig),
      ProxyConfig.make http https np ua = Except.ok pc → pc.use_aproxy = true →
      pc.http.isSome = true ∨ pc.https.isSome = true) := by
  constructor
  · rfl
  · intro http https np ua pc h hua
    unfold ProxyConfig.make at h
    split at h
    · cases h
    · rename_i hcond
      injection h with h'
      subst h'
      simp only [ProxyConfig.use_aproxy] at hua
      subst hua
      simp only [ProxyConfig.http, ProxyConfig.https]
      cases hh : http with
      | some u => simp [hh]
      | none =>
        cases hs : https with
        | some v => simp [hs]
        | none => exact absurd (by simp [hh, hs]) hcond

/-- C6 witness: the validator rejects `use_aproxy=true` with no schemes even
when `no_proxy` is populated. -/
theorem C6_use_aproxy_requires_scheme_witness :
    ProxyConfig.make none none (some "10.0.0.0/8,localhost") true
      = Except.error "aproxy requires http or https to be set" :=
  (C6_use_aproxy_requires_scheme (some "10.0.0.0/8,localhost")).1

/-- C7: the truthiness of a constructed `ProxyConfig` (`__bool__`) is true
iff at least one of `http`/`https` is set; with neither scheme set the
config is falsy even when `no_proxy`/`use_aproxy` are populated. -/
theorem C7_proxy_bool (http https : Option HttpUrl) (no_proxy : Option String)
    (use_aproxy : Bool) (pc : ProxyConfig)
    (h : ProxyConfig.make http https no_proxy use_aproxy = Except.ok pc) :
    (pc.toBool = true ↔ (pc.http.isSome = true ∨ pc.https.isSome = true)) ∧
    (pc.http = none → pc.https = none → pc.toBool = false) := by
  constructor
  · simp [ProxyConfig.toBool]
  · intro h1 h2
    simp [ProxyConfig.toBool, h1, h2]

/-- C7 witness: a config with only `no_proxy` and `use_aproxy=false` set is
falsy. -/
theorem C7_proxy_bool_witness :
    ProxyConfig.toBool ⟨none, none, some "10.0.0.0/8", false⟩ = false :=
  (C7_proxy_bool none none (some "10.0.0.0/8") false
    ⟨none, none, some "10.0.0.0/8", false⟩ rfl).2 rfl rfl

/-- C8: an `SSHDebugConnection` construction attempt succeeds iff the port
is in 1–65535 and both fingerprints match `^SHA256:.*`; a successful
construction returns exactly the validated fields, so no structurally
invalid instance is produced. -/
theorem C8_ssh_debug_validation (host : String) (port : Nat)
    (rsa_fingerprint ed25519_fingerprint : String) :
    ((SSHDebugConnection.make host port rsa_fingerprint ed25519_fingerprint).isOk = true ↔
      (1 ≤ port ∧ port ≤ 65535 ∧ matchesSHA256 rsa_fingerprint = true ∧
        matchesSHA256 ed25519_fingerprint = true)) ∧
    (∀ c, SSHDebugConnection.make host port rsa_fingerprint ed25519_fingerprint = Except.ok c →
      c = ⟨host, port, rsa_fingerprint, ed25519_fingerprint⟩) := by
  constructor
  · unfold SSHDebugConnection.make
    split_ifs with h1 h2 h3 h4
    · simp only [Except.toBool, true_iff]
      exact ⟨by omega, h2, h3, h4⟩
    · simp only [Except.toBool, Bool.false_eq_true, false_iff]
      rintro ⟨-, -, -, a⟩
      exact h4 a
    · simp only [Except.toBool, Bool.false_eq_true, false_iff]
      rintro ⟨-, -, a, -⟩
      exact h3 a
    · simp only [Except.toBool, Bool.false_eq_true, false_iff]
      rintro ⟨-, a, -, -⟩
      exact h2 a
    · simp only [Except.toBool, Bool.false_eq_true, false_iff]
      rintro ⟨a, -, -, -⟩
      omega
  · intro c hc
    unfold SSHDebugConnection.make at hc
    split_ifs at hc
    injection hc with h'
    exact h'.symm

/-- C8 witness: port 22 with well-formed fingerprints passes; port 70000 is
rejected. -/
theorem C8_ssh_debug_validation_witness :
    (SSHDebugConnection.make "10.10.10.10" 22 "SHA256:abc" "SHA256:def").isOk = true ∧
    (SSHDebugConnection.make "10.10.10.10" 70000 "SHA256:abc" "SHA256:def").isOk = false := by
  constructor
  · exact (C8_ssh_debug_validation "10.10.10.10" 22 "SHA256:abc" "SHA256:def").1.mpr
      ⟨by omega, by omega, rfl, rfl⟩
  · have h := (C8_ssh_debug_validation "10.10.10.10" 70000 "SHA256:abc" "SHA256:def").1
    cases hv : (SSHDebugConnection.make "10.10.10.10" 70000 "SHA256:abc" "SHA256:def").isOk
    · rfl
    · exact absurd (h.mp hv).2.1 (by omega)

/-- C10: for every `ProxyConfig` that passed construction, evaluating
`aproxy_address` never hits the assertion branch: it returns `Except.ok`,
with a string when `use_aproxy` is true and `none` when it is false. -/
theorem C10_aproxy_address_total (http https : Option HttpUrl) (no_proxy : Option String)
    (use_aproxy : Bool) (pc : ProxyConfig)
    (h : ProxyConfig.make http https no_proxy use_aproxy = Except.ok pc) :
    ∃ r, pc.aproxy_address = Except.ok r ∧
      (pc.use_aproxy = true → r.isSome = true) ∧
      (pc.use_aproxy = false → r = none) := by
  unfold ProxyConfig.make at h
  split at h
  · cases h
  · rename_i hcond
    injection h with h'
    subst h'
    by_cases hua : use_aproxy = true
    · have hor : http.isSome = true ∨ https.isSome = true := by
        subst hua
        cases hh : http with
        | some u => simp [hh]
        | none =>
          cases hs : https with
          | some v => simp [hs]
          | none => exact absurd (by simp [hh, hs]) hcond
      cases hh : http with
      | some u =>
          refine ⟨some (match u.port with
              | none => u.host
              | some p => u.host ++ ":" ++ toString p), ?_, ?_, ?_⟩
          · simp [ProxyConfig.aproxy_address, hua, hh, Option.orElse]
          · intro
            rfl
          · intro hf
            simp only [ProxyConfig.use_aproxy] at hf
            rw [hua] at hf
            cases hf
      | none =>
          cases hs : https with
          | none =>
              rw [hh, hs] at hor
              simp at hor
          | some v =>
              refine ⟨some (match v.port with
                  | none => v.host
                  | some p => v.host ++ ":" ++ toString p), ?_, ?_, ?_⟩
              · simp [ProxyConfig.aproxy_address, hua, hh, hs, Option.orElse]
              · intro
                rfl
              · intro hf
                simp only [ProxyConfig.use_aproxy] at hf
                rw [hua] at hf
                cases hf
    · have hua' : use_aproxy = false := by
        cases use_aproxy
        · rfl
        · exact absurd rfl hua
      refine ⟨none, ?_, ?_, fun _ => rfl⟩
      · simp [ProxyConfig.aproxy_address, hua']
      · intro ht
        simp only [ProxyConfig.use_aproxy] at ht
        exact absurd ht hua

/-- C10 witness: a validated config with only `https` set and `use_aproxy`
true evaluates `aproxy_address` without hitting the assertion. -/
theorem C10_aproxy_address_total_witness :
    (ProxyConfig.aproxy_address ⟨none, some ⟨"proxy.internal", none⟩, none, true⟩).isOk
      = true := by
  obtain ⟨r, hr, -, -⟩ := C10_aproxy_address_total none (some ⟨"proxy.internal", none⟩) none true
    ⟨none, some ⟨"proxy.internal", none⟩, none, true⟩ rfl
  rw [hr]
  rfl

/-- C9 counterexample: with an application configuration whose `extra_labels`
is `["special-label"]`, the instance produced by `create_instance_config`
carries labels `["app", "jammy"]` only — the configured extra label is not
included, refuting "the label set includes every string in extraLabels". -/
theorem C9_counterexample :
    "special-label" ∈ exampleAppConfiguration.extra_labels ∧
    create_instance_config "app/0" "image-1" "org/repo" "tok" "abcdef"
      = some { name := "app-0-abcdef", labels := ["app", "jammy"],
               registration_token := "tok", github_path := "org/repo",
               openstack_image := "image-1" } ∧
    "special-label" ∉ (["app", "jammy"] : List String) :=
  ⟨by decide, rfl, by decide⟩

/-- C9 (amended): `create_instance_config` does not consult the configured
extra labels; the labels of the produced `InstanceConfig` are exactly
`[app_name, "jammy"]` where `app_name` is the unit name before its last
`/`. -/
theorem C9_instance_labels (unit_name app_name unit_num image path token suffix : String)
    (h : rsplitSlash unit_name = some (app_name, unit_num)) :
    create_instance_config unit_name image path token suffix
      = some { name := app_name ++ "-" ++ unit_num ++ "-" ++ suffix,
               labels := [app_name, "jammy"],
               registration_token := token, github_path := path,
               openstack_image := image } := by
  unfold create_instance_config
  rw [h]

/-- C2 counterexample: with runner-application metadata reporting
architecture "mips", `build_image` does fail with the
`ImageBuildError`-wrapped `UnsupportedArchitectureError`, but only AFTER the
external build script has been invoked (the architecture check at lines
240-244 runs after `execute_command` at line 236), refuting "without
invoking the external build script". -/
theorem C2_counterexample :
    (build_image (Except.ok ⟨"http://dl/runner.tgz", "mips"⟩) true ["microstack"]
        (fun _ => true) true "id-1" []).outcome
      = Except.error (BuildFailure.imageBuildError
          (OpenstackImageBuildError.unsupportedArchitecture "mips")) ∧
    Effect.ranBuildScript "http://dl/runner.tgz" ∈
      (build_image (Except.ok ⟨"http://dl/runner.tgz", "mips"⟩) true ["microstack"]
        (fun _ => true) true "id-1" []).effects :=
  ⟨rfl, by decide⟩

/-- C2 (amended): for every runner-application metadata whose architecture
is neither "x64" nor "arm64", when fetching succeeded and the build script
exited 0, `build_image` fails with `ImageBuildError` wrapping
`UnsupportedArchitectureError` without connecting to the cloud and leaving
the image store untouched — but the external build script has already been
invoked by then. -/
theorem C2_build_image_unsupported_arch (app : RunnerApplication)
    (clouds : List String) (deleteOk : String → Bool) (createOk : Bool)
    (newImageId : String) (store : List Img)
    (h1 : app.architecture ≠ "x64") (h2 : app.architecture ≠ "arm64") :
    (build_image (Except.ok app) true clouds deleteOk createOk newImageId store).outcome
        = Except.error (BuildFailure.imageBuildError
            (OpenstackImageBuildError.unsupportedArchitecture app.architecture)) ∧
    Effect.connectedCloud ∉
      (build_image (Except.ok app) true clouds deleteOk createOk newImageId store).effects ∧
    Effect.ranBuildScript app.download_url ∈
      (build_image (Except.ok app) true clouds deleteOk createOk newImageId store).effects ∧
    (build_image (Except.ok app) true clouds deleteOk createOk newImageId store).store
      = store := by
  have hb : build_image (Except.ok app) true clouds deleteOk createOk newImageId store
      = ⟨Except.error (BuildFailure.imageBuildError
            (OpenstackImageBuildError.unsupportedArchitecture app.architecture)),
         store, [Effect.ranBuildScript app.download_url]⟩ := by
    unfold build_image _get_supported_runner_arch
    simp [h1, h2]
  rw [hb]
  exact ⟨rfl, by simp, by simp, rfl⟩

/-- C2 witness: the amended statement at architecture "mips" with a
non-empty store. -/
theorem C2_build_image_unsupported_arch_witness :
    (build_image (Except.ok ⟨"http://dl/runner.tgz", "mips"⟩) true ["microstack"]
        (fun _ => true) true "id-1" [⟨"old-id", "jammy"⟩]).outcome
        = Except.error (BuildFailure.imageBuildError
            (OpenstackImageBuildError.unsupportedArchitecture "mips")) ∧
    Effect.connectedCloud ∉
      (build_image (Except.ok ⟨"http://dl/runner.tgz", "mips"⟩) true ["microstack"]
        (fun _ => true) true "id-1" [⟨"old-id", "jammy"⟩]).effects ∧
    Effect.ranBuildScript "http://dl/runner.tgz" ∈
      (build_image (Except.ok ⟨"http://dl/runner.tgz", "mips"⟩) true ["microstack"]
        (fun _ => true) true "id-1" [⟨"old-id", "jammy"⟩]).effects ∧
    (build_image (Except.ok ⟨"http://dl/runner.tgz", "mips"⟩) true ["microstack"]
        (fun _ => true) true "id-1" [⟨"old-id", "jammy"⟩]).store
      = [⟨"old-id", "jammy"⟩] :=
  C2_build_image_unsupported_arch ⟨"http://dl/runner.tgz", "mips"⟩ ["microstack"]
    (fun _ => true) true "id-1" [⟨"old-id", "jammy"⟩] (by decide) (by decide)

/-- Helper: one attempt maps a cloud-side exception to
`InstanceLaunchError`. -/
theorem create_instance_once_error (cloud : Nat → Except Nat Unit) (a e : Nat)
    (h : cloud a = Except.error e) :
    create_instance_once cloud a = Except.error (InstanceLaunchError.failedToLaunch e) := by
  unfold create_instance_once
  rw [h]

/-- Helper: one attempt succeeds when the cloud call succeeds. -/
theorem create_instance_once_ok (cloud : Nat → Except Nat Unit) (a : Nat)
    (h : cloud a = Except.ok ()) :
    create_instance_once cloud a = Except.ok () := by
  unfold create_instance_once
  rw [h]

/-- Helper: with no retries remaining the operation's result is final and no
delay is slept. -/
theorem retryRun_zero {ε α : Type} (op : Nat → Except ε α) (b m d a : Nat) :
    retryRun op b m 0 d a = (op a, a + 1, []) := rfl

/-- Helper: a successful attempt stops the retry loop immediately. -/
theorem retryRun_step_ok {ε α : Type} (op : Nat → Except ε α) (b m r d a : Nat) (v : α)
    (h : op a = Except.ok v) :
    retryRun op b m (r + 1) d a = (Except.ok v, a + 1, []) := by
  unfold retryRun
  rw [h]

/-- Helper: a failed attempt with retries remaining sleeps the current delay
and continues with the backed-off delay. -/
theorem retryRun_step_error {ε α : Type} (op : Nat → Except ε α) (b m r d a : Nat) (e : ε)
    (res : Except ε α) (n : Nat) (ds : List Nat) (d' a' : Nat)
    (h : op a = Except.error e) (hd : min (d * b) m = d') (ha : a + 1 = a')
    (hr : retryRun op b m r d' a' = (res, n, ds)) :
    retryRun op b m (r + 1) d a = (res, n, d :: ds) := by
  unfold retryRun
  rw [h, hd, ha, hr]

/-- C1: `create_instance` under its retry policy makes at most 5 attempts
with pre-retry delays 5, 10, 20, 40 (doubling from 5, capped at 60, a cap
never reached within 5 tries); if all 5 attempts fail the last
`InstanceLaunchError` is surfaced unchanged, and if attempt `k+1` is the
first to succeed the call returns success after exactly `k+1` attempts. -/
theorem C1_create_instance_retry (cloud : Nat → Except Nat Unit) :
    ((∀ i, i < 5 → ∃ e, cloud i = Except.error e) →
      ∃ e, cloud 4 = Except.error e ∧
        create_instance cloud
          = (Except.error (InstanceLaunchError.failedToLaunch e), 5, [5, 10, 20, 40])) ∧
    (∀ k, k < 5 → (∀ i, i < k → ∃ e, cloud i = Except.error e) → cloud k = Except.ok () →
      create_instance cloud = (Except.ok (), k + 1, List.take k [5, 10, 20, 40])) := by
  constructor
  · intro h
    obtain ⟨e0, h0⟩ := h 0 (by omega)
    obtain ⟨e1, h1⟩ := h 1 (by omega)
    obtain ⟨e2, h2⟩ := h 2 (by omega)
    obtain ⟨e3, h3⟩ := h 3 (by omega)
    obtain ⟨e4, h4⟩ := h 4 (by omega)
    refine ⟨e4, h4, ?_⟩
    have s4 : retryRun (create_instance_once cloud) 2 60 0 60 4
        = (Except.error (InstanceLaunchError.failedToLaunch e4), 5, []) := by
      rw [retryRun_zero, create_instance_once_error cloud 4 e4 h4]
    have s3 := retryRun_step_error _ 2 60 0 40 3 _ _ _ _ 60 4
        (create_instance_once_error cloud 3 e3 h3) (by norm_num) rfl s4
    have s2 := retryRun_step_error _ 2 60 1 20 2 _ _ _ _ 40 3
        (create_instance_once_error cloud 2 e2 h2) (by norm_num) rfl s3
    have s1 := retryRun_step_error _ 2 60 2 10 1 _ _ _ _ 20 2
        (create_instance_once_error cloud 1 e1 h1) (by norm_num) rfl s2
    have s0 := retryRun_step_error _ 2 60 3 5 0 _ _ _ _ 10 1
        (create_instance_once_error cloud 0 e0 h0) (by norm_num) rfl s1
    exact s0
  · intro k hk hfail hsucc
    interval_cases k
    · exact retryRun_step_ok _ 2 60 3 5 0 () (create_instance_once_ok cloud 0 hsucc)
    · obtain ⟨e0, h0⟩ := hfail 0 (by omega)
      have s1 := retryRun_step_ok (create_instance_once cloud) 2 60 2 10 1 ()
        (create_instance_once_ok cloud 1 hsucc)
      exact retryRun_step_error _ 2 60 3 5 0 _ _ _ _ 10 1
        (create_instance_once_error cloud 0 e0 h0) (by norm_num) rfl s1
    · obtain ⟨e0, h0⟩ := hfail 0 (by omega)
      obtain ⟨e1, h1⟩ := hfail 1 (by omega)
      have s2 := retryRun_step_ok (create_instance_once cloud) 2 60 1 20 2 ()
        (create_instance_once_ok cloud 2 hsucc)
      have s1 := retryRun_step_error _ 2 60 2 10 1 _ _ _ _ 20 2
        (create_instance_once_error cloud 1 e1 h1) (by norm_num) rfl s2
      exact retryRun_step_error _ 2 60 3 5 0 _ _ _ _ 10 1
        (create_instance_once_error cloud 0 e0 h0) (by norm_num) rfl s1
    · obtain ⟨e0, h0⟩ := hfail 0 (by omega)
      obtain ⟨e1, h1⟩ := hfail 1 (by omega)
      obtain ⟨e2, h2⟩ := hfail 2 (by omega)
      have s3 := retryRun_step_ok (create_instance_once cloud) 2 60 0 40 3 ()
        (create_instance_once_ok cloud 3 hsucc)
      have s2 := retryRun_step_error _ 2 60 1 20 2 _ _ _ _ 40 3
        (create_instance_once_error cloud 2 e2 h2) (by norm_num) rfl s3
      have s1 := retryRun_step_error _ 2 60 2 10 1 _ _ _ _ 20 2
        (create_instance_once_error cloud 1 e1 h1) (by norm_num) rfl s2
      exact retryRun_step_error _ 2 60 3 5 0 _ _ _ _ 10 1
        (create_instance_once_error cloud 0 e0 h0) (by norm_num) rfl s1
    · obtain ⟨e0, h0⟩ := hfail 0 (by omega)
      obtain ⟨e1, h1⟩ := hfail 1 (by omega)
      obtain ⟨e2, h2⟩ := hfail 2 (by omega)
      obtain ⟨e3, h3⟩ := hfail 3 (by omega)
      have s4 : retryRun (create_instance_once cloud) 2 60 0 60 4
          = (Except.ok (), 5, []) := by
        rw [retryRun_zero, create_instance_once_ok cloud 4 hsucc]
      have s3 := retryRun_step_error _ 2 60 0 40 3 _ _ _ _ 60 4
        (create_instance_once_error cloud 3 e3 h3) (by norm_num) rfl s4
      have s2 := retryRun_step_error _ 2 60 1 20 2 _ _ _ _ 40 3
        (create_instance_once_error cloud 2 e2 h2) (by norm_num) rfl s3
      have s1 := retryRun_step_error _ 2 60 2 10 1 _ _ _ _ 20 2
        (create_instance_once_error cloud 1 e1 h1) (by norm_num) rfl s2
      exact retryRun_step_error _ 2 60 3 5 0 _ _ _ _ 10 1
        (create_instance_once_error cloud 0 e0 h0) (by norm_num) rfl s1

/-- C1 witness: a cloud stub that always raises makes exactly 5 attempts
with delays 5, 10, 20, 40 and surfaces the 5th error; a stub that succeeds
on the 3rd attempt returns success with exactly 3 attempts. -/
theorem C1_create_instance_retry_witness :
    create_instance (fun i => Except.error i)
        = (Except.error (InstanceLaunchError.failedToLaunch 4), 5, [5, 10, 20, 40]) ∧
    create_instance (fun i => if i == 2 then Except.ok () else Except.error i)
        = (Except.ok (), 3, [5, 10]) := by
  constructor
  · obtain ⟨e, he, hc⟩ :=
      (C1_create_instance_retry (fun i => Except.error i)).1 (fun i _ => ⟨i, rfl⟩)
    have he' : (Except.error 4 : Except Nat Unit) = Except.error e := he
    injection he' with h'
    subst h'
    exact hc
  · exact (C1_create_instance_retry (fun i => if i == 2 then Except.ok () else Except.error i)).2
      2 (by omega) (fun i hi => ⟨i, by interval_cases i <;> rfl⟩) rfl

/-- Helper: images left by a successful delete loop were already in the
store and share no id with any searched match. -/
theorem deleteLoop_ok_mem (deleteOk : String → Bool) :
    ∀ (ms st st' : List Img) (effs : List Effect),
      deleteLoop deleteOk ms st = (Except.ok (), st', effs) →
      ∀ i ∈ st', i ∈ st ∧ ∀ m ∈ ms, i.id ≠ m.id := by
  intro ms
  induction ms with
  | nil =>
    intro st st' effs h i hi
    unfold deleteLoop at h
    simp only [Prod.mk.injEq] at h
    obtain ⟨-, hst, -⟩ := h
    subst hst
    exact ⟨hi, by simp⟩
  | cons m rest ih =>
    intro st st' effs h i hi
    unfold deleteLoop at h
    by_cases hd : deleteOk m.id
    · rw [if_pos hd] at h
      rcases hr : deleteLoop deleteOk rest (st.filter (fun j => j.id != m.id)) with ⟨r, s, es⟩
      rw [hr] at h
      simp only [Prod.mk.injEq] at h
      obtain ⟨hrr, hs, -⟩ := h
      subst hs
      subst hrr
      obtain ⟨hmem, hrest⟩ := ih _ _ _ hr i hi
      rw [List.mem_filter] at hmem
      obtain ⟨hmem_st, hne⟩ := hmem
      refine ⟨hmem_st, ?_⟩
      intro m' hm'
      rcases List.mem_cons.mp hm' with h1 | h2
      · subst h1
        simpa using hne
      · exact hrest m' h2
    · rw [if_neg hd] at h
      simp only [Prod.mk.injEq] at h
      obtain ⟨habs, -, -⟩ := h
      cases habs

/-- Helper: a failed delete loop adds nothing to the store. -/
theorem deleteLoop_error_mem (deleteOk : String → Bool) :
    ∀ (ms st st' : List Img) (effs : List Effect) (e : OpenstackImageBuildError),
      deleteLoop deleteOk ms st = (Except.error e, st', effs) →
      ∀ i ∈ st', i ∈ st := by
  intro ms
  induction ms with
  | nil =>
    intro st st' effs e h i hi
    unfold deleteLoop at h
    simp only [Prod.mk.injEq] at h
    obtain ⟨habs, -, -⟩ := h
    cases habs
  | cons m rest ih =>
    intro st st' effs e h i hi
    unfold deleteLoop at h
    by_cases hd : deleteOk m.id
    · rw [if_pos hd] at h
      rcases hr : deleteLoop deleteOk rest (st.filter (fun j => j.id != m.id)) with ⟨r, s, es⟩
      rw [hr] at h
      simp only [Prod.mk.injEq] at h
      obtain ⟨hrr, hs, -⟩ := h
      subst hs
      subst hrr
      have := ih _ _ _ _ hr i hi
      exact (List.mem_filter.mp this).1
    · rw [if_neg hd] at h
      simp only [Prod.mk.injEq] at h
      obtain ⟨-, hs, -⟩ := h
      subst hs
      exact hi

/-- Helper: the delete loop only ever performs image deletions. -/
theorem deleteLoop_effects (deleteOk : String → Bool) :
    ∀ (ms st : List Img) (r : Except OpenstackImageBuildError Unit) (st' : List Img)
      (effs : List Effect), deleteLoop deleteOk ms st = (r, st', effs) →
      ∀ e ∈ effs, ∃ id, e = Effect.deletedImage id := by
  intro ms
  induction ms with
  | nil =>
    intro st r st' effs h e he
    unfold deleteLoop at h
    simp only [Prod.mk.injEq] at h
    obtain ⟨-, -, heffs⟩ := h
    subst heffs
    cases he
  | cons m rest ih =>
    intro st r st' effs h e he
    unfold deleteLoop at h
    by_cases hd : deleteOk m.id
    · rw [if_pos hd] at h
      rcases hr : deleteLoop deleteOk rest (st.filter (fun j => j.id != m.id)) with ⟨r', s, es⟩
      rw [hr] at h
      simp only [Prod.mk.injEq] at h
      obtain ⟨-, -, heffs⟩ := h
      subst heffs
      rcases List.mem_cons.mp he with h1 | h2
      · exact ⟨m.id, h1⟩
      · exact ih _ _ _ _ hr e h2
    · rw [if_neg hd] at h
      simp only [Prod.mk.injEq] at h
      obtain ⟨-, -, heffs⟩ := h
      subst heffs
      cases he

/-- Helper: reduction of `build_image` through its cloud phase, given the
architecture check passes and the delete loop's result. -/
theorem build_image_cloud_eq (app : RunnerApplication) (c : String) (cs : List String)
    (deleteOk : String → Bool) (createOk : Bool) (newImageId : String) (store : List Img)
    (imageArch : String)
    (harch : _get_supported_runner_arch app.architecture = Except.ok imageArch)
    (r : Except OpenstackImageBuildError Unit) (st : List Img) (effs : List Effect)
    (hdl : deleteLoop deleteOk (store.filter (fun i => i.name == IMAGE_NAME)) store
        = (r, st, effs)) :
    build_image (Except.ok app) true (c :: cs) deleteOk createOk newImageId store
      = match r with
        | Except.error e =>
            ⟨Except.error (BuildFailure.imageBuildError e), st,
             Effect.ranBuildScript app.download_url :: Effect.connectedCloud ::
               Effect.searchedImages IMAGE_NAME :: effs⟩
        | Except.ok _ =>
          if createOk then
            ⟨Except.ok newImageId, st ++ [⟨newImageId, IMAGE_NAME⟩],
             Effect.ranBuildScript app.download_url :: Effect.connectedCloud ::
               Effect.searchedImages IMAGE_NAME ::
                 (effs ++ [Effect.createdImage IMAGE_NAME])⟩
          else
            ⟨Except.error (BuildFailure.imageBuildError OpenstackImageBuildError.uploadFailed),
             st,
             Effect.ranBuildScript app.download_url :: Effect.connectedCloud ::
               Effect.searchedImages IMAGE_NAME :: effs⟩ := by
  simp only [build_image, harch, hdl, _create_connection, Bool.not_true, Bool.false_eq_true,
    if_false]
  cases r <;> rfl

/-- C4: once `build_image` reaches the cloud phase (metadata fetched, build
succeeded, architecture supported, connection established), a successful
call leaves exactly one image under the fixed logical name — the freshly
uploaded one — and a deletion failure aborts with `ImageBuildError` before
any upload: no image is created and the store holds no image that was not
already present. -/
theorem C4_build_image_dedup (app : RunnerApplication) (c : String) (cs : List String)
    (deleteOk : String → Bool) (createOk : Bool) (newImageId : String) (store : List Img)
    (imageArch : String)
    (harch : _get_supported_runner_arch app.architecture = Except.ok imageArch) :
    ((build_image (Except.ok app) true (c :: cs) deleteOk createOk newImageId store).outcome
        = Except.ok newImageId →
      (build_image (Except.ok app) true (c :: cs) deleteOk createOk newImageId
          store).store.filter (fun i => i.name == IMAGE_NAME)
        = [⟨newImageId, IMAGE_NAME⟩]) ∧
    ((build_image (Except.ok app) true (c :: cs) deleteOk createOk newImageId store).outcome
        = Except.error (BuildFailure.imageBuildError
            OpenstackImageBuildError.deleteDuplicateFailed) →
      Effect.createdImage IMAGE_NAME ∉
        (build_image (Except.ok app) true (c :: cs) deleteOk createOk newImageId store).effects ∧
      ∀ i ∈ (build_image (Except.ok app) true (c :: cs) deleteOk createOk newImageId store).store,
        i ∈ store) := by
  rcases hdl : deleteLoop deleteOk (store.filter (fun i => i.name == IMAGE_NAME)) store
    with ⟨r, st, effs⟩
  have hb := build_image_cloud_eq app c cs deleteOk createOk newImageId store imageArch harch
    r st effs hdl
  rcases r with e | u
  · have hb' : build_image (Except.ok app) true (c :: cs) deleteOk createOk newImageId store
        = ⟨Except.error (BuildFailure.imageBuildError e), st,
           Effect.ranBuildScript app.download_url :: Effect.connectedCloud ::
             Effect.searchedImages IMAGE_NAME :: effs⟩ := hb
    rw [hb']
    constructor
    · intro hout
      exact Except.noConfusion hout
    · intro hout
      constructor
      · intro hc
        simp only [List.mem_cons] at hc
        rcases hc with h1 | h1 | h1 | h1
        · cases h1
        · cases h1
        · cases h1
        · obtain ⟨id, heq⟩ := deleteLoop_effects deleteOk _ _ _ _ _ hdl _ h1
          cases heq
      · intro i hi
        exact deleteLoop_error_mem deleteOk _ _ _ _ _ hdl i hi
  · cases createOk
    · have hb' : build_image (Except.ok app) true (c :: cs) deleteOk false newImageId store
          = ⟨Except.error (BuildFailure.imageBuildError OpenstackImageBuildError.uploadFailed),
             st,
             Effect.ranBuildScript app.download_url :: Effect.connectedCloud ::
               Effect.searchedImages IMAGE_NAME :: effs⟩ := hb
      rw [hb']
      constructor
      · intro hout
        exact Except.noConfusion hout
      · intro hout
        simp at hout
    · have hb' : build_image (Except.ok app) true (c :: cs) deleteOk true newImageId store
          = ⟨Except.ok newImageId, st ++ [⟨newImageId, IMAGE_NAME⟩],
             Effect.ranBuildScript app.download_url :: Effect.connectedCloud ::
               Effect.searchedImages IMAGE_NAME ::
                 (effs ++ [Effect.createdImage IMAGE_NAME])⟩ := hb
      rw [hb']
      constructor
      · intro hout
        rw [List.filter_append]
        have hstnil : st.filter (fun i => i.name == IMAGE_NAME) = [] := by
          rw [List.filter_eq_nil_iff]
          intro i hi hname
          obtain ⟨hmem, hrest⟩ := deleteLoop_ok_mem deleteOk _ _ _ _ hdl i hi
          have hin : i ∈ store.filter (fun j => j.name == IMAGE_NAME) :=
            List.mem_filter.mpr ⟨hmem, hname⟩
          exact hrest i hin rfl
        rw [hstnil]
        simp
      · intro hout
        exact Except.noConfusion hout

/-- C4 witness: starting from a store holding two images named "jammy" and
one named "other", a successful build leaves exactly the new image under
"jammy". -/
theorem C4_build_image_dedup_witness :
    (build_image (Except.ok ⟨"http://dl/runner.tgz", "x64"⟩) true ["microstack"]
        (fun _ => true) true "new-id"
        [⟨"a", "jammy"⟩, ⟨"b", "jammy"⟩, ⟨"c", "other"⟩]).store.filter
          (fun i => i.name == IMAGE_NAME) = [⟨"new-id", IMAGE_NAME⟩] :=
  (C4_build_image_dedup ⟨"http://dl/runner.tgz", "x64"⟩ "microstack" [] (fun _ => true) true
    "new-id" [⟨"a", "jammy"⟩, ⟨"b", "jammy"⟩, ⟨"c", "other"⟩] "amd64" rfl).1 rfl

/-- C9 witness: the amended statement at unit name `app/0`. -/
theorem C9_instance_labels_witness :
    create_instance_config "app/0" "image-1" "org/repo" "tok" "abcdef"
      = some { name := "app" ++ "-" ++ "0" ++ "-" ++ "abcdef",
               labels := ["app", "jammy"],
               registration_token := "tok", github_path := "org/repo",
               openstack_image := "image-1" } :=
  C9_instance_labels "app/0" "app" "0" "image-1" "org/repo" "tok" "abcdef" rfl

end GithubRunner
